import Mathlib

/-!
Verification of the Customer Feedback Dashboard (CFD) analysis pipeline and
automation-job state machine.

The repository ships the database schema (`database/schema.sql`), the shared
TypeScript types (`frontend/src/types`), the API documentation and the
frontend `APIClient`.  The backend pipeline itself (language detection,
sentiment, topics, entities, insight synthesis, orchestrate dispatcher) is
not part of the available sources, so those components are modelled from the
specification, against the record shapes fixed by the schema and the
TypeScript types.  Scores and confidences are modelled as rationals; the
thresholds 0.6 (sentiment confidence) and 0.35 (topic score) are the ones
documented in the repository README and API documentation.
-/

namespace CFD

/-- Sentiment labels, mirroring the SQL enum `sentiment_label`
(`'positive', 'negative', 'neutral'`) and the TypeScript union in
`Analysis.sentiment_label`. -/
inductive SentimentLabel where
  | positive
  | negative
  | neutral
deriving DecidableEq, Repr

/-- Urgency levels, mirroring the SQL enum `urgency_level`
(`'low', 'medium', 'high'`) and `GraniteInsights.urgency`. -/
inductive Urgency where
  | low
  | medium
  | high
deriving DecidableEq, Repr

/-- Job statuses, mirroring the SQL enum `job_status`
(`'queued', 'processing', 'completed', 'failed', 'cancelled'`) and the
TypeScript union in `OrchestrateJob.status`. -/
inductive JobStatus where
  | queued
  | processing
  | completed
  | failed
  | cancelled
deriving DecidableEq, Repr

/-- The pipeline stages that can appear in an `errors[]` entry. -/
inductive Stage where
  | language_detection
  | sentiment
  | topic
  | entity_extraction
  | insight
deriving DecidableEq, Repr

/-- A topic with its zero-shot score, mirroring the TypeScript
`TopicScore` interface (`label`, `score`). -/
structure TopicScore where
  label : String
  score : ℚ
deriving DecidableEq, Repr

/-- Output of the sentiment classifier: label, score, confidence and the
model used, mirroring the `sentiment_*` columns of `analyses`. -/
structure SentimentResult where
  label : SentimentLabel
  score : ℚ
  confidence : ℚ
  model_used : String
deriving DecidableEq, Repr

/-- A tie-break re-assessment, stored in `analyses.granite_tie_break`,
carrying its own label and reasoning. -/
structure TieBreak where
  label : SentimentLabel
  reasoning : String
deriving DecidableEq, Repr

/-- One entry of `Analysis.errors[]`: a `(stage, reason)` record for a
stage that soft-failed. -/
structure StageError where
  stage : Stage
  reason : String
deriving DecidableEq, Repr

/-- An extracted entity, mirroring the TypeScript `Entity` interface. -/
structure Entity where
  text : String
  type : String
  confidence : ℚ
deriving DecidableEq, Repr

/-- The three result arrays of the entity-extraction stage. -/
structure EntityData where
  entities : List Entity
  keywords : List String
  categories : List String
deriving DecidableEq, Repr

/-- Insight fields, mirroring the TypeScript `GraniteInsights` interface
and the `analyses.granite_insights` column. -/
structure GraniteInsights where
  urgency : Urgency
  action_recommendation : String
  confidence : ℚ
  reasoning : String
deriving DecidableEq, Repr

/-- The structured completion returned by the insight synthesizer. -/
structure InsightResult where
  summary : String
  topics_fixed : List TopicScore
  urgency : Urgency
  action_recommendation : String
  reasoning : String
  confidence : ℚ
deriving DecidableEq, Repr

/-- An immutable feedback record: the read-only input to the pipeline,
mirroring the columns of `feedbacks` that the core consumes. -/
structure Feedback where
  id : String
  content : String
  language : String
deriving DecidableEq, Repr

/-- One analysis record, mirroring the `analyses` table and the TypeScript
`Analysis` interface: flattened sentiment columns, `topics`/`topics_fixed`,
entity arrays, granite fields, the optional `granite_tie_break` and the
ordered `errors` list. -/
structure Analysis where
  feedback_id : String
  detected_language : Option String
  sentiment_label : SentimentLabel
  sentiment_score : ℚ
  sentiment_confidence : ℚ
  sentiment_model : String
  topics : List TopicScore
  topics_fixed : List TopicScore
  entities : List Entity
  keywords : List String
  categories : List String
  granite_summary : Option String
  granite_insights : Option GraniteInsights
  granite_tie_break : Option TieBreak
  errors : List StageError
deriving DecidableEq, Repr

/-- Sentiment confidence threshold 0.6, documented in the README
("Threshold confidence: 0.6") and the API documentation. -/
def SENTIMENT_CONFIDENCE_THRESHOLD : ℚ := 6 / 10

/-- Topic score threshold 0.35, documented in the README
("Threshold: 0.35") and the API documentation. -/
def TOPIC_SCORE_THRESHOLD : ℚ := 7 / 20

/-- The fixed topic taxonomy from the README: harga, layanan, produk,
pengiriman, lokasi, kualitas, after-sales. -/
def TOPIC_TAXONOMY : List String :=
  ["harga", "layanan", "produk", "pengiriman", "lokasi", "kualitas", "after-sales"]

/-- Modelled from the spec: the external AI capabilities the pipeline calls
(the backend service adapters are not in the available sources).  Fallible
stages return `Except` with an error reason; `classify_topics` returns a
score for every label of the closed taxonomy; `tie_break_assess` is the
generative re-assessment of sentiment used only below the confidence
threshold. -/
structure StageEnv where
  detect_language : String → Except String (String × ℚ)
  classify_sentiment : String → String → Except String SentimentResult
  classify_topics : String → Except String (String → ℚ)
  extract_entities : String → Except String EntityData
  synthesize_insight : String → SentimentResult → List TopicScore → EntityData →
    Except String InsightResult
  tie_break_assess : String → SentimentResult → TieBreak

/-- Modelled from the spec: the language-detection stage never aborts the
pipeline; on failure it falls back to the unknown language and records a
soft error. -/
def detectLanguage (env : StageEnv) (fb : Feedback) : String × List StageError :=
  match env.detect_language fb.content with
  | .ok (lang, _) => (lang, [])
  | .error e => ("unknown", [⟨Stage.language_detection, e⟩])

/-- Modelled from the spec: the sentiment stage classifies the content
under the detected language (with the multilingual fallback on unknown). -/
def sentimentStage (env : StageEnv) (fb : Feedback) : Except String SentimentResult :=
  env.classify_sentiment fb.content (detectLanguage env fb).1

/-- Modelled from the spec: the topic stage keeps every taxonomy label
scoring at least the 0.35 threshold and discards the rest (multi-label). -/
def keptTopics (scores : String → ℚ) : List TopicScore :=
  (TOPIC_TAXONOMY.map fun l => TopicScore.mk l (scores l)).filter
    fun t => TOPIC_SCORE_THRESHOLD ≤ t.score

/-- Modelled from the spec: entity extraction is soft-failable — on failure
the arrays default to empty and a `(stage, reason)` record is produced. -/
def entityStage (env : StageEnv) (fb : Feedback) : EntityData × List StageError :=
  match env.extract_entities fb.content with
  | .ok d => (d, [])
  | .error e => (⟨[], [], []⟩, [⟨Stage.entity_extraction, e⟩])

/-- Modelled from the spec: the insight synthesizer receives content,
sentiment, kept topics and extracted entities. -/
def insightStage (env : StageEnv) (fb : Feedback) (sent : SentimentResult)
    (scores : String → ℚ) : Except String InsightResult :=
  env.synthesize_insight fb.content sent (keptTopics scores) (entityStage env fb).1

/-- Modelled from the spec: the ordered `errors[]` list — soft failures of
language detection, entity extraction and insight synthesis, in stage
order. -/
def softErrors (env : StageEnv) (fb : Feedback) (sent : SentimentResult)
    (scores : String → ℚ) : List StageError :=
  (detectLanguage env fb).2 ++ (entityStage env fb).2 ++
    (match insightStage env fb sent scores with
     | .ok _ => []
     | .error e => [⟨Stage.insight, e⟩])

/-- Modelled from the spec: the merge of the stage outputs into one
`Analysis` record.  The tie-break re-assessment is stored in
`granite_tie_break` exactly when sentiment confidence is below 0.6, the
original sentiment label is stored unchanged, and soft failures land in the
ordered `errors` list. -/
def assembleAnalysis (env : StageEnv) (fb : Feedback) (sent : SentimentResult)
    (scores : String → ℚ) : Analysis :=
  { feedback_id := fb.id
    detected_language := some (detectLanguage env fb).1
    sentiment_label := sent.label
    sentiment_score := sent.score
    sentiment_confidence := sent.confidence
    sentiment_model := sent.model_used
    topics := keptTopics scores
    topics_fixed :=
      match insightStage env fb sent scores with
      | .ok i => i.topics_fixed
      | .error _ => []
    entities := (entityStage env fb).1.entities
    keywords := (entityStage env fb).1.keywords
    categories := (entityStage env fb).1.categories
    granite_summary :=
      match insightStage env fb sent scores with
      | .ok i => some i.summary
      | .error _ => none
    granite_insights :=
      match insightStage env fb sent scores with
      | .ok i => some ⟨i.urgency, i.action_recommendation,
                       i.confidence, i.reasoning⟩
      | .error _ => none
    granite_tie_break :=
      if sent.confidence < SENTIMENT_CONFIDENCE_THRESHOLD then
        some (env.tie_break_assess fb.content sent)
      else none
    errors := softErrors env fb sent scores }

/-- Modelled from the spec: the full analysis pipeline of the missing
backend orchestrator.  Sentiment and topic classification are hard failures
that abort with no `Analysis`; language detection, entity extraction and
insight synthesis soft-fail into `errors[]`. -/
def runPipeline (env : StageEnv) (fb : Feedback) : Except String Analysis :=
  match sentimentStage env fb with
  | .error e => .error e
  | .ok sent =>
    match env.classify_topics fb.content with
    | .error e => .error e
    | .ok scores =>
      .ok (assembleAnalysis env fb sent scores)

/-- The analysis store: at most one live `Analysis` per feedback id,
matching the `UNIQUE(feedback_id)` constraint of `analyses`. -/
def Store : Type := String → Option Analysis

/-- Upsert keyed by feedback id, the write primitive the schema grants via
`UNIQUE(feedback_id)`. -/
def Store.upsert (s : Store) (id : String) (a : Analysis) : Store :=
  fun k => if k = id then some a else s k

/-- Modelled from the spec: persisting a pipeline result — a successful
analysis is upserted under its feedback id, a hard failure leaves the store
untouched and surfaces the reason. -/
def persistResult (s : Store) (fid : String) :
    Except String Analysis → Except String Analysis × Store
  | .ok a => (.ok a, s.upsert fid a)
  | .error e => (.error e, s)

/-- Modelled from the spec: `analyze(feedback_id, force)` of the missing
backend orchestrator.  With an existing analysis and `force = false` it
returns the stored record unchanged; otherwise it runs the pipeline and
persists the result. -/
def analyze (env : StageEnv) (s : Store) (fb : Feedback) (force : Bool) :
    Except String Analysis × Store :=
  match s fb.id, force with
  | some a, false => (.ok a, s)
  | _, _ => persistResult s fb.id (runPipeline env fb)

/-- Modelled from the spec: the batch variant fans out independent analyses
of the listed feedbacks, reporting per item either the `Analysis` or the
hard-failure reason. -/
def analyzeBatch (env : StageEnv) (s : Store) :
    List Feedback → Bool → List (String × Except String Analysis)
  | [], _ => []
  | fb :: rest, force =>
    (fb.id, (analyze env s fb force).1) :: analyzeBatch env s rest force

/-- An automation job, mirroring the `orchestrate_jobs` table and the
TypeScript `OrchestrateJob` interface; timestamps are abstract ticks. -/
structure OrchestrateJob where
  kind : String
  status : JobStatus
  payload : String
  response : Option String
  external_ref : Option String
  retry_count : ℕ
  max_retries : ℕ
  error_message : Option String
  scheduled_at : ℕ
  started_at : Option ℕ
  completed_at : Option ℕ
deriving DecidableEq, Repr

/-- A job is terminal once `completed`, `cancelled`, or `failed` with its
retries exhausted; terminal jobs are immutable. -/
def OrchestrateJob.isTerminal (j : OrchestrateJob) : Bool :=
  j.status = JobStatus.completed || j.status = JobStatus.cancelled ||
    (j.status = JobStatus.failed && j.max_retries ≤ j.retry_count)

/-- Modelled from the spec: job creation by the missing dispatcher — a fresh
job starts `queued` with `retry_count = 0` and the schema default
`max_retries = 3`. -/
def newJob (kind payload : String) (now : ℕ) : OrchestrateJob :=
  { kind := kind
    status := JobStatus.queued
    payload := payload
    response := none
    external_ref := none
    retry_count := 0
    max_retries := 3
    error_message := none
    scheduled_at := now
    started_at := none
    completed_at := none }

/-- Modelled from the spec: a worker claims a `queued` job by flipping its
status to `processing`; the claim is honored only from `queued`. -/
def startJob (j : OrchestrateJob) (now : ℕ) : Option OrchestrateJob :=
  if j.status = JobStatus.queued then
    some { j with status := JobStatus.processing, started_at := some now }
  else none

/-- Modelled from the spec: successful execution moves a `processing` job to
`completed`, recording response and external reference. -/
def completeJob (j : OrchestrateJob) (resp ref : String) (now : ℕ) :
    Option OrchestrateJob :=
  if j.status = JobStatus.processing then
    some { j with status := JobStatus.completed, response := some resp,
                  external_ref := some ref, completed_at := some now }
  else none

/-- Modelled from the spec: a failed execution moves a `processing` job to
`failed`, incrementing `retry_count` and recording the error message. -/
def failJob (j : OrchestrateJob) (msg : String) : Option OrchestrateJob :=
  if j.status = JobStatus.processing then
    some { j with status := JobStatus.failed, retry_count := j.retry_count + 1,
                  error_message := some msg }
  else none

/-- Modelled from the spec: retry re-queues a `failed` job with a new
`scheduled_at`, honored only while `retry_count < max_retries`. -/
def retryJob (j : OrchestrateJob) (t : ℕ) : Option OrchestrateJob :=
  if j.status = JobStatus.failed ∧ j.retry_count < j.max_retries then
    some { j with status := JobStatus.queued, scheduled_at := t }
  else none

/-- Modelled from the spec: an explicit cancel request moves a non-terminal
job to `cancelled` and leaves a terminal job unchanged. -/
def cancelJob (j : OrchestrateJob) : OrchestrateJob :=
  if j.isTerminal then j else { j with status := JobStatus.cancelled }

/-- The step relation of the job state machine: every mutation the
dispatcher or a manual retry/cancel request can perform. -/
inductive JobStep (j : OrchestrateJob) : OrchestrateJob → Prop where
  | start (now : ℕ) (j' : OrchestrateJob) (h : startJob j now = some j') :
      JobStep j j'
  | complete (resp ref : String) (now : ℕ) (j' : OrchestrateJob)
      (h : completeJob j resp ref now = some j') : JobStep j j'
  | fail (msg : String) (j' : OrchestrateJob) (h : failJob j msg = some j') :
      JobStep j j'
  | retry (t : ℕ) (j' : OrchestrateJob) (h : retryJob j t = some j') :
      JobStep j j'
  | cancel (h : j.isTerminal = false) : JobStep j (cancelJob j)

/-- A job state is reachable when some sequence of steps produces it from a
freshly created job. -/
def JobReachable (j : OrchestrateJob) : Prop :=
  ∃ kind payload now, Relation.ReflTransGen JobStep (newJob kind payload now) j

/-- The environment variables the frontend build reads, from
`vite-env.d.ts`: `VITE_BACKEND_URL` and `VITE_DEMO_MODE` (absent = `none`). -/
structure ViteEnv where
  VITE_BACKEND_URL : Option String
  VITE_DEMO_MODE : Option String
deriving DecidableEq, Repr

/-- JavaScript falsiness of an optional string: `undefined` or `""`. -/
def jsFalsy : Option String → Bool
  | none => true
  | some v => v = ""

/-- `IS_DEMO_MODE` from `services/api.ts`:
`!import.meta.env.VITE_BACKEND_URL || import.meta.env.VITE_DEMO_MODE === 'true'`. -/
def IS_DEMO_MODE (env : ViteEnv) : Bool :=
  jsFalsy env.VITE_BACKEND_URL || env.VITE_DEMO_MODE = some "true"

/-- A user record, mirroring the TypeScript `User` interface. -/
structure User where
  id : String
  email : String
  full_name : Option String
  role : String
  created_at : String
  updated_at : String
deriving DecidableEq, Repr

/-- `MOCK_DATA.user` from `services/api.ts`: the fixed demo user, with
timestamps taken at evaluation time. -/
def MOCK_USER (now : String) : User :=
  { id := "demo-user-id"
    email := "demo@cfd.app"
    full_name := some "Demo User"
    role := "demo_viewer"
    created_at := now
    updated_at := now }

/-- The observable outcome of `APIClient.login`: a local demo-mode success,
a local demo-mode error thrown, or a network request to the backend. -/
inductive LoginOutcome where
  | demoOk (access_token : String) (user : User)
  | demoError (msg : String)
  | network (endpoint : String) (email password : String)
deriving DecidableEq, Repr

/-- `APIClient.login` from `services/api.ts`: in demo mode the backend call
is bypassed — the hard-coded credentials return the mock user with a
`demo-token-` access token, anything else throws; outside demo mode the
request goes to `/api/auth/login`.  `nowMs` stands for `Date.now()` and
`now` for the mock timestamps. -/
def login (env : ViteEnv) (now : String) (nowMs : ℕ) (email password : String) :
    LoginOutcome :=
  if IS_DEMO_MODE env then
    if email = "demo@cfd.app" ∧ password = "demo12345" then
      LoginOutcome.demoOk ("demo-token-" ++ toString nowMs) (MOCK_USER now)
    else
      LoginOutcome.demoError "Invalid demo credentials. Use demo@cfd.app / demo12345"
  else
    LoginOutcome.network "/api/auth/login" email password

/-- The tie-break invariant of an analysis record: `granite_tie_break` is
non-empty exactly when the sentiment confidence is below the threshold. -/
def tieBreakOk (a : Analysis) : Prop :=
  a.granite_tie_break.isSome ↔ a.sentiment_confidence < SENTIMENT_CONFIDENCE_THRESHOLD

/-- A store is well-formed when every live analysis satisfies the tie-break
invariant. -/
def StoreOk (s : Store) : Prop :=
  ∀ id a, s id = some a → tieBreakOk a

/-- The empty analysis store. -/
def emptyStore : Store := fun _ => none

/-- The inductive invariant of the job state machine: the retry count never
exceeds the maximum, strictly while the job is still `queued` or
`processing`. -/
def JobInv (j : OrchestrateJob) : Prop :=
  j.retry_count ≤ j.max_retries ∧
    ((j.status = JobStatus.queued ∨ j.status = JobStatus.processing) →
      j.retry_count < j.max_retries)

/-- A concrete sentiment result taken from `MOCK_DATA` (`analysis-1`). -/
def demoSent : SentimentResult :=
  { label := SentimentLabel.positive
    score := 89 / 100
    confidence := 94 / 100
    model_used := "cardiffnlp/twitter-xlm-roberta-base-sentiment-multilingual" }

/-- Concrete topic scores: `layanan` 0.92 and `produk` 0.85 as in
`MOCK_DATA`, every other taxonomy label scoring 0. -/
def demoScores : String → ℚ := fun l =>
  if l = "layanan" then 92 / 100 else if l = "produk" then 85 / 100 else 0

/-- A concrete insight result in the shape of `MOCK_DATA`. -/
def demoInsight : InsightResult :=
  { summary := "Feedback positif tentang kualitas kopi dan pelayanan yang cepat."
    topics_fixed := [⟨"layanan", 92 / 100⟩, ⟨"produk", 85 / 100⟩]
    urgency := Urgency.low
    action_recommendation := "Gunakan sebagai testimonial positif untuk marketing."
    reasoning := "sentimen positif dengan confidence tinggi"
    confidence := 88 / 100 }

/-- A concrete stage environment whose answers mirror `MOCK_DATA`
(`feedback-1` / `analysis-1`), used to evaluate the pipeline on a concrete
input. -/
def demoEnv : StageEnv :=
  { detect_language := fun _ => .ok ("id", 9 / 10)
    classify_sentiment := fun _ _ => .ok demoSent
    classify_topics := fun _ => .ok demoScores
    extract_entities := fun _ =>
      .ok ⟨[⟨"kopi", "product", 9 / 10⟩], ["kopi", "pelayanan"], ["food_beverage"]⟩
    synthesize_insight := fun _ _ _ _ => .ok demoInsight
    tie_break_assess := fun _ s => ⟨s.label, "re-assessment of a borderline sentiment"⟩ }

/-- The demo feedback `feedback-1` from `MOCK_DATA`. -/
def demoFeedback : Feedback :=
  { id := "feedback-1"
    content := "Kopi di sini enak banget! Pelayanannya juga cepat. Recommended!"
    language := "id" }

/-- A borderline sentiment result with confidence 0.55, as in the
specification scenario for the tie-break. -/
def borderlineSent : SentimentResult :=
  { label := SentimentLabel.neutral
    score := 52 / 100
    confidence := 55 / 100
    model_used := "cardiffnlp/twitter-xlm-roberta-base-sentiment-multilingual" }

/-- The demo environment with a borderline sentiment classifier. -/
def borderlineEnv : StageEnv :=
  { demoEnv with classify_sentiment := fun _ _ => .ok borderlineSent }

/-- The demo environment with an unreachable sentiment model (hard
failure). -/
def sentimentDownEnv : StageEnv :=
  { demoEnv with classify_sentiment := fun _ _ => .error "sentiment model unreachable" }

/-- The demo environment with a failing entity extractor (soft failure). -/
def entityDownEnv : StageEnv :=
  { demoEnv with extract_entities := fun _ => .error "watson quota exceeded" }

/-- A concrete job that has exhausted its retries: terminal `failed`. -/
def exhaustedJob : OrchestrateJob :=
  { kind := "ticket"
    status := JobStatus.failed
    payload := "payload"
    response := none
    external_ref := none
    retry_count := 3
    max_retries := 3
    error_message := some "orchestrate endpoint error"
    scheduled_at := 0
    started_at := some 0
    completed_at := none }

/-- Inversion for a successful pipeline run: both critical stages returned,
and the analysis is the merge of the stage outputs. -/
theorem runPipeline_ok_elim (env : StageEnv) (fb : Feedback) (a : Analysis)
    (h : runPipeline env fb = Except.ok a) :
    ∃ sent scores, sentimentStage env fb = Except.ok sent ∧
      env.classify_topics fb.content = Except.ok scores ∧
      a = assembleAnalysis env fb sent scores := by
  unfold runPipeline at h
  cases hs : sentimentStage env fb with
  | error e => rw [hs] at h; exact absurd h (by simp)
  | ok sent =>
    rw [hs] at h
    cases ht : env.classify_topics fb.content with
    | error e => rw [ht] at h; exact absurd h (by simp)
    | ok scores =>
      rw [ht] at h
      exact ⟨sent, scores, rfl, rfl, (Except.ok.inj h).symm⟩

/-- The empty store is well-formed. -/
theorem emptyStore_ok : StoreOk emptyStore := by
  intro id a h
  exact absurd h (by simp [emptyStore])

/-- Concrete evaluation: on the `MOCK_DATA` scores the pipeline keeps
exactly `layanan` (0.92) and `produk` (0.85). -/
theorem keptTopics_demo :
    keptTopics demoScores = [⟨"layanan", 92 / 100⟩, ⟨"produk", 85 / 100⟩] := by
  simp only [keptTopics, TOPIC_TAXONOMY, demoScores, TOPIC_SCORE_THRESHOLD,
    List.map_cons, List.map_nil, List.filter_cons, List.filter_nil]
  simp
  norm_num

/-- The merged analysis satisfies the tie-break invariant. -/
theorem assembleAnalysis_tieBreakOk (env : StageEnv) (fb : Feedback)
    (sent : SentimentResult) (scores : String → ℚ) :
    tieBreakOk (assembleAnalysis env fb sent scores) := by
  unfold tieBreakOk assembleAnalysis
  by_cases h : sent.confidence < SENTIMENT_CONFIDENCE_THRESHOLD <;> simp [h]

/-- `analyze` on a fresh feedback id runs and persists the pipeline. -/
theorem analyze_fresh (env : StageEnv) (s : Store) (fb : Feedback)
    (force : Bool) (h : s fb.id = none) :
    analyze env s fb force = persistResult s fb.id (runPipeline env fb) := by
  unfold analyze
  rw [h]

/-- `analyze` with `force = true` always reruns and persists the
pipeline. -/
theorem analyze_force (env : StageEnv) (s : Store) (fb : Feedback) :
    analyze env s fb true = persistResult s fb.id (runPipeline env fb) := by
  unfold analyze
  cases s fb.id <;> rfl

/-- Persisting preserves store well-formedness when the persisted analysis
satisfies the tie-break invariant. -/
theorem persistResult_storeOk (s : Store) (fid : String)
    (r : Except String Analysis) (hs : StoreOk s)
    (hr : ∀ a, r = Except.ok a → tieBreakOk a) :
    StoreOk (persistResult s fid r).2 ∧
      ∀ a, (persistResult s fid r).1 = Except.ok a → tieBreakOk a := by
  cases r with
  | ok a =>
    refine ⟨?_, ?_⟩
    · intro id b hb
      simp only [persistResult, Store.upsert] at hb
      by_cases hid : id = fid
      · rw [if_pos hid] at hb
        cases hb
        exact hr a rfl
      · rw [if_neg hid] at hb
        exact hs id b hb
    · intro b hb
      cases hb
      exact hr a rfl
  | error e =>
    refine ⟨hs, ?_⟩
    intro b hb
    exact absurd hb (by simp [persistResult])

/-- C1: every analysis the pipeline produces has `granite_tie_break`
non-empty exactly when `sentiment_confidence < 0.6`, and `analyze` (the
only operation writing analyses) preserves this invariant across the store
and in its returned record. -/
theorem granite_tie_break_iff_low_confidence :
    (∀ (env : StageEnv) (fb : Feedback) (a : Analysis),
      runPipeline env fb = Except.ok a → tieBreakOk a) ∧
    (∀ (env : StageEnv) (s : Store) (fb : Feedback) (force : Bool),
      StoreOk s →
        StoreOk (analyze env s fb force).2 ∧
          ∀ a, (analyze env s fb force).1 = Except.ok a → tieBreakOk a) := by
  have hpipe : ∀ (env : StageEnv) (fb : Feedback) (a : Analysis),
      runPipeline env fb = Except.ok a → tieBreakOk a := by
    intro env fb a h
    obtain ⟨sent, scores, -, -, rfl⟩ := runPipeline_ok_elim env fb a h
    exact assembleAnalysis_tieBreakOk env fb sent scores
  refine ⟨hpipe, ?_⟩
  intro env s fb force hs
  have hper := persistResult_storeOk s fb.id (runPipeline env fb) hs
    (fun a ha => hpipe env fb a ha)
  cases hid : s fb.id with
  | some a0 =>
    cases force with
    | false =>
      have hcall : analyze env s fb false = (Except.ok a0, s) := by
        unfold analyze
        rw [hid]
      rw [hcall]
      refine ⟨hs, ?_⟩
      intro a ha
      cases ha
      exact hs fb.id a0 hid
    | true => rw [analyze_force env s fb]; exact hper
  | none => rw [analyze_fresh env s fb force hid]; exact hper

/-- Witness for `granite_tie_break_iff_low_confidence` on the demo
pipeline run over the empty store. -/
theorem granite_tie_break_iff_low_confidence_witness :
    tieBreakOk (assembleAnalysis demoEnv demoFeedback demoSent demoScores) ∧
      StoreOk (analyze demoEnv emptyStore demoFeedback false).2 :=
  ⟨granite_tie_break_iff_low_confidence.1 demoEnv demoFeedback
      (assembleAnalysis demoEnv demoFeedback demoSent demoScores) rfl,
    (granite_tie_break_iff_low_confidence.2 demoEnv emptyStore demoFeedback
      false emptyStore_ok).1⟩

/-- C5: every topic kept by the pipeline scores at least 0.35 and comes
from the fixed taxonomy; a taxonomy label is kept exactly when it reaches
the threshold (all above kept, all below discarded); and several labels can
co-occur. -/
theorem topics_above_threshold :
    (∀ (env : StageEnv) (fb : Feedback) (a : Analysis),
      runPipeline env fb = Except.ok a →
        ∀ t ∈ a.topics, TOPIC_SCORE_THRESHOLD ≤ t.score ∧ t.label ∈ TOPIC_TAXONOMY) ∧
    (∀ (env : StageEnv) (fb : Feedback) (a : Analysis) (scores : String → ℚ),
      runPipeline env fb = Except.ok a →
      env.classify_topics fb.content = Except.ok scores →
        ∀ l ∈ TOPIC_TAXONOMY,
          (TOPIC_SCORE_THRESHOLD ≤ scores l ↔ TopicScore.mk l (scores l) ∈ a.topics)) ∧
    (∃ a, runPipeline demoEnv demoFeedback = Except.ok a ∧ 2 ≤ a.topics.length) := by
  refine ⟨?_, ?_, ?_⟩
  · intro env fb a h t ht
    obtain ⟨sent, scores, -, -, rfl⟩ := runPipeline_ok_elim env fb a h
    unfold assembleAnalysis keptTopics at ht
    simp only [List.mem_filter, List.mem_map, decide_eq_true_eq] at ht
    obtain ⟨⟨l, hl, rfl⟩, hscore⟩ := ht
    exact ⟨hscore, hl⟩
  · intro env fb a scores h hsc
    obtain ⟨sent, scores', -, hsc', rfl⟩ := runPipeline_ok_elim env fb a h
    rw [hsc] at hsc'
    obtain rfl := Except.ok.inj hsc'
    intro l hl
    unfold assembleAnalysis keptTopics
    simp only [List.mem_filter, List.mem_map, decide_eq_true_eq]
    constructor
    · intro hle
      exact ⟨⟨l, hl, rfl⟩, hle⟩
    · intro hmem
      exact hmem.2
  · refine ⟨assembleAnalysis demoEnv demoFeedback demoSent demoScores, rfl, ?_⟩
    show 2 ≤ (keptTopics demoScores).length
    rw [keptTopics_demo]
    simp

/-- Witness for `topics_above_threshold`: `layanan` scores 0.92 on the demo
run and is kept. -/
theorem topics_above_threshold_witness :
    TopicScore.mk "layanan" (demoScores "layanan") ∈
      (assembleAnalysis demoEnv demoFeedback demoSent demoScores).topics :=
  (topics_above_threshold.2.1 demoEnv demoFeedback
    (assembleAnalysis demoEnv demoFeedback demoSent demoScores) demoScores rfl rfl
    "layanan" (by simp [TOPIC_TAXONOMY])).mp
    (by norm_num [demoScores, TOPIC_SCORE_THRESHOLD])

/-- C7: the tie-break re-assessment is stored separately with its own label
and reasoning while the classifier output is stored unchanged. -/
theorem tie_break_preserves_original_label
    (env : StageEnv) (fb : Feedback) (a : Analysis) (sent : SentimentResult)
    (h : runPipeline env fb = Except.ok a)
    (hs : sentimentStage env fb = Except.ok sent) :
    a.sentiment_label = sent.label ∧
      a.sentiment_score = sent.score ∧
      a.sentiment_confidence = sent.confidence ∧
      (sent.confidence < SENTIMENT_CONFIDENCE_THRESHOLD →
        a.granite_tie_break = some (env.tie_break_assess fb.content sent)) := by
  obtain ⟨sent', scores, hs', -, rfl⟩ := runPipeline_ok_elim env fb a h
  rw [hs] at hs'
  obtain rfl := Except.ok.inj hs'
  refine ⟨rfl, rfl, rfl, ?_⟩
  intro hlow
  simp [assembleAnalysis, hlow]

/-- Witness for `tie_break_preserves_original_label` on the borderline
(confidence 0.55) run. -/
theorem tie_break_preserves_original_label_witness :
    (assembleAnalysis borderlineEnv demoFeedback borderlineSent demoScores).sentiment_label
        = borderlineSent.label ∧
      (assembleAnalysis borderlineEnv demoFeedback borderlineSent
          demoScores).granite_tie_break =
        some (borderlineEnv.tie_break_assess demoFeedback.content borderlineSent) := by
  have h := tie_break_preserves_original_label borderlineEnv demoFeedback
    (assembleAnalysis borderlineEnv demoFeedback borderlineSent demoScores)
    borderlineSent rfl rfl
  exact ⟨h.1, h.2.2.2 (by norm_num [borderlineSent, SENTIMENT_CONFIDENCE_THRESHOLD])⟩

/-- C8: a hard failure of a critical stage aborts `analyze` with no
analysis persisted; a successful run implies both critical stages returned
and records exactly the soft failures, in stage order, in `errors[]`. -/
theorem analysis_hard_and_soft_failures :
    (∀ (env : StageEnv) (s : Store) (fb : Feedback) (force : Bool) (e : String),
      runPipeline env fb = Except.error e → s fb.id = none →
        analyze env s fb force = (Except.error e, s)) ∧
    (∀ (env : StageEnv) (fb : Feedback) (e : String),
      sentimentStage env fb = Except.error e → runPipeline env fb = Except.error e) ∧
    (∀ (env : StageEnv) (fb : Feedback) (sent : SentimentResult) (e : String),
      sentimentStage env fb = Except.ok sent →
      env.classify_topics fb.content = Except.error e →
        runPipeline env fb = Except.error e) ∧
    (∀ (env : StageEnv) (fb : Feedback) (a : Analysis),
      runPipeline env fb = Except.ok a →
        ∃ sent scores, sentimentStage env fb = Except.ok sent ∧
          env.classify_topics fb.content = Except.ok scores ∧
          a.errors = softErrors env fb sent scores) := by
  refine ⟨?_, ?_, ?_, ?_⟩
  · intro env s fb force e he hid
    rw [analyze_fresh env s fb force hid, he]
    rfl
  · intro env fb e he
    unfold runPipeline
    rw [he]
  · intro env fb sent e hs ht
    unfold runPipeline
    rw [hs, ht]
  · intro env fb a h
    obtain ⟨sent, scores, hs, ht, rfl⟩ := runPipeline_ok_elim env fb a h
    exact ⟨sent, scores, hs, ht, rfl⟩

/-- Witness for `analysis_hard_and_soft_failures`: an unreachable sentiment
model aborts with nothing persisted, and a failing entity extractor only
lands in `errors[]`. -/
theorem analysis_hard_and_soft_failures_witness :
    analyze sentimentDownEnv emptyStore demoFeedback false =
        (Except.error "sentiment model unreachable", emptyStore) ∧
      (assembleAnalysis entityDownEnv demoFeedback demoSent demoScores).errors =
        softErrors entityDownEnv demoFeedback demoSent demoScores :=
  ⟨analysis_hard_and_soft_failures.1 sentimentDownEnv emptyStore demoFeedback
      false "sentiment model unreachable" rfl rfl,
    rfl⟩

/-- C3: with an existing analysis and `force = false`, `analyze` returns
the stored record unchanged and leaves the store untouched, and a second
call returns the identical analysis. -/
theorem analyze_idempotent_read (env : StageEnv) (s : Store) (fb : Feedback)
    (a : Analysis) (h : s fb.id = some a) :
    analyze env s fb false = (Except.ok a, s) ∧
      (analyze env (analyze env s fb false).2 fb false).1 =
        (analyze env s fb false).1 := by
  have h1 : analyze env s fb false = (Except.ok a, s) := by
    unfold analyze
    rw [h]
  refine ⟨h1, ?_⟩
  rw [h1]
  show (analyze env s fb false).1 = Except.ok a
  rw [h1]

/-- Witness for `analyze_idempotent_read` at the demo store holding the
demo analysis. -/
theorem analyze_idempotent_read_witness :
    analyze demoEnv
        (Store.upsert emptyStore "feedback-1"
          (assembleAnalysis demoEnv demoFeedback demoSent demoScores))
        demoFeedback false =
      (Except.ok (assembleAnalysis demoEnv demoFeedback demoSent demoScores),
        Store.upsert emptyStore "feedback-1"
          (assembleAnalysis demoEnv demoFeedback demoSent demoScores)) :=
  (analyze_idempotent_read demoEnv
    (Store.upsert emptyStore "feedback-1"
      (assembleAnalysis demoEnv demoFeedback demoSent demoScores))
    demoFeedback
    (assembleAnalysis demoEnv demoFeedback demoSent demoScores)
    (by simp [Store.upsert, demoFeedback])).1

/-- C9: the batch variant reports one entry per feedback, each computed
independently from the initial store — splicing an item into a batch never
changes the entries of its siblings, whether that item succeeds or
hard-fails. -/
theorem analyzeBatch_independent :
    (∀ (env : StageEnv) (s : Store) (fbs : List Feedback) (force : Bool),
      analyzeBatch env s fbs force =
        fbs.map fun fb => (fb.id, (analyze env s fb force).1)) ∧
    (∀ (env : StageEnv) (s : Store) (force : Bool) (l1 : List Feedback)
      (fb : Feedback) (l2 : List Feedback),
      analyzeBatch env s (l1 ++ fb :: l2) force =
        analyzeBatch env s l1 force ++
          (fb.id, (analyze env s fb force).1) :: analyzeBatch env s l2 force) := by
  constructor
  · intro env s fbs force
    induction fbs with
    | nil => rfl
    | cons fb rest ih => simp [analyzeBatch, ih]
  · intro env s force l1 fb l2
    induction l1 with
    | nil => rfl
    | cons x rest ih => simp [analyzeBatch, ih]

/-- C10: in demo mode, `login` never issues a network request and succeeds
exactly on the credentials `demo@cfd.app` / `demo12345`, in which case it
returns the fixed mock demo user; every other pair throws the demo error. -/
theorem login_demo_mode_credentials (env : ViteEnv) (now : String) (ms : ℕ)
    (email pw : String) (h : IS_DEMO_MODE env = true) :
    ((∃ tok u, login env now ms email pw = LoginOutcome.demoOk tok u) ↔
      (email = "demo@cfd.app" ∧ pw = "demo12345")) ∧
    (∀ ep e p, login env now ms email pw ≠ LoginOutcome.network ep e p) ∧
    (email = "demo@cfd.app" → pw = "demo12345" →
      login env now ms email pw =
        LoginOutcome.demoOk ("demo-token-" ++ toString ms) (MOCK_USER now)) ∧
    ((¬(email = "demo@cfd.app" ∧ pw = "demo12345")) →
      login env now ms email pw =
        LoginOutcome.demoError "Invalid demo credentials. Use demo@cfd.app / demo12345") := by
  unfold login
  rw [h]
  by_cases hc : email = "demo@cfd.app" ∧ pw = "demo12345"
  · simp [hc]
  · simp [hc]
    intro e hp
    exact absurd ⟨e, hp⟩ hc

/-- Witness for `login_demo_mode_credentials` with no backend URL
configured. -/
theorem login_demo_mode_credentials_witness :
    IS_DEMO_MODE ⟨none, none⟩ = true ∧
      login ⟨none, none⟩ "2024-01-01" 0 "demo@cfd.app" "demo12345" =
        LoginOutcome.demoOk ("demo-token-" ++ toString 0) (MOCK_USER "2024-01-01") :=
  ⟨by decide,
    (login_demo_mode_credentials ⟨none, none⟩ "2024-01-01" 0 "demo@cfd.app"
      "demo12345" (by decide)).2.2.1 rfl rfl⟩

/-- A freshly created job satisfies the job invariant. -/
theorem jobInv_new (kind payload : String) (now : ℕ) :
    JobInv (newJob kind payload now) := by
  constructor
  · simp [newJob]
  · intro _
    simp [newJob]

/-- Every step of the job state machine preserves the job invariant. -/
theorem jobInv_step (j j' : OrchestrateJob) (h : JobInv j) (st : JobStep j j') :
    JobInv j' := by
  obtain ⟨h1, h2⟩ := h
  cases st with
  | start now j' hs =>
    simp only [startJob] at hs
    split at hs
    case isTrue hq =>
      obtain rfl := Option.some.inj hs
      exact ⟨h1, fun _ => h2 (Or.inl hq)⟩
    case isFalse hq => exact absurd hs (by simp)
  | complete resp ref now j' hs =>
    simp only [completeJob] at hs
    split at hs
    case isTrue hp =>
      obtain rfl := Option.some.inj hs
      refine ⟨h1, ?_⟩
      intro hcontra
      rcases hcontra with hc | hc <;> exact absurd hc (by simp)
    case isFalse hp => exact absurd hs (by simp)
  | fail msg j' hs =>
    simp only [failJob] at hs
    split at hs
    case isTrue hp =>
      obtain rfl := Option.some.inj hs
      refine ⟨h2 (Or.inr hp), ?_⟩
      intro hcontra
      rcases hcontra with hc | hc <;> exact absurd hc (by simp)
    case isFalse hp => exact absurd hs (by simp)
  | retry t j' hs =>
    simp only [retryJob] at hs
    split at hs
    case isTrue hc =>
      obtain rfl := Option.some.inj hs
      exact ⟨h1, fun _ => hc.2⟩
    case isFalse hc => exact absurd hs (by simp)
  | cancel hterm =>
    have hc : cancelJob j = { j with status := JobStatus.cancelled } := by
      simp [cancelJob, hterm]
    rw [hc]
    refine ⟨h1, ?_⟩
    intro hcontra
    rcases hcontra with hcon | hcon <;> exact absurd hcon (by simp)

/-- Every reachable job state satisfies the job invariant. -/
theorem jobInv_reachable (j : OrchestrateJob) (h : JobReachable j) : JobInv j := by
  obtain ⟨kind, payload, now, hr⟩ := h
  induction hr with
  | refl => exact jobInv_new kind payload now
  | tail hab hbc ih => exact jobInv_step _ _ ih hbc

/-- C2: in every reachable state `retry_count ≤ max_retries`; a failed
execution yields status `failed`; and a `failed` job with exhausted retries
is terminal — no transition (in particular none back to `queued`) applies
to it. -/
theorem retry_count_le_max_retries :
    (∀ j : OrchestrateJob, JobReachable j → j.retry_count ≤ j.max_retries) ∧
    (∀ (j j' : OrchestrateJob) (msg : String), failJob j msg = some j' →
      j'.status = JobStatus.failed) ∧
    (∀ j j' : OrchestrateJob, j.status = JobStatus.failed →
      j.max_retries ≤ j.retry_count → ¬ JobStep j j') := by
  refine ⟨?_, ?_, ?_⟩
  · intro j h
    exact (jobInv_reachable j h).1
  · intro j j' msg h
    simp only [failJob] at h
    split at h
    case isTrue hp =>
      obtain rfl := Option.some.inj h
      rfl
    case isFalse hp => exact absurd h (by simp)
  · intro j j' hf hmax st
    cases st with
    | start now j' hs =>
      simp only [startJob, hf] at hs
      exact absurd hs (by simp)
    | complete resp ref now j' hs =>
      simp only [completeJob, hf] at hs
      exact absurd hs (by simp)
    | fail msg j' hs =>
      simp only [failJob, hf] at hs
      exact absurd hs (by simp)
    | retry t j' hs =>
      simp only [retryJob, hf] at hs
      split at hs
      case isTrue hc => exact absurd hc.2 (Nat.not_lt.mpr hmax)
      case isFalse hc => exact absurd hs (by simp)
    | cancel hterm =>
      rw [OrchestrateJob.isTerminal, hf] at hterm
      simp [hmax] at hterm

/-- Witness for `retry_count_le_max_retries`: the fresh job and the
concrete exhausted job. -/
theorem retry_count_le_max_retries_witness :
    (newJob "ticket" "payload" 0).retry_count ≤
        (newJob "ticket" "payload" 0).max_retries ∧
      ¬ JobStep exhaustedJob { exhaustedJob with status := JobStatus.queued } :=
  ⟨retry_count_le_max_retries.1 (newJob "ticket" "payload" 0)
      ⟨"ticket", "payload", 0, Relation.ReflTransGen.refl⟩,
    retry_count_le_max_retries.2.2 exhaustedJob
      { exhaustedJob with status := JobStatus.queued } rfl (by decide)⟩

/-- C6: every step of the job state machine follows
`queued → processing → (completed or failed)`, `failed → queued` only while
`retry_count < max_retries`, or non-terminal → `cancelled`; and a cancel
request against a `completed` or terminally `failed` job leaves it
unchanged. -/
theorem job_status_state_machine :
    (∀ j j' : OrchestrateJob, JobStep j j' →
      (j.status = JobStatus.queued ∧ j'.status = JobStatus.processing) ∨
      (j.status = JobStatus.processing ∧
        (j'.status = JobStatus.completed ∨ j'.status = JobStatus.failed)) ∨
      (j.status = JobStatus.failed ∧ j.retry_count < j.max_retries ∧
        j'.status = JobStatus.queued) ∨
      (j.isTerminal = false ∧ j'.status = JobStatus.cancelled)) ∧
    (∀ j : OrchestrateJob,
      j.status = JobStatus.completed ∨
        (j.status = JobStatus.failed ∧ j.max_retries ≤ j.retry_count) →
      cancelJob j = j) := by
  constructor
  · intro j j' st
    cases st with
    | start now j' hs =>
      simp only [startJob] at hs
      split at hs
      case isTrue hq =>
        obtain rfl := Option.some.inj hs
        exact Or.inl ⟨hq, rfl⟩
      case isFalse hq => exact absurd hs (by simp)
    | complete resp ref now j' hs =>
      simp only [completeJob] at hs
      split at hs
      case isTrue hp =>
        obtain rfl := Option.some.inj hs
        exact Or.inr (Or.inl ⟨hp, Or.inl rfl⟩)
      case isFalse hp => exact absurd hs (by simp)
    | fail msg j' hs =>
      simp only [failJob] at hs
      split at hs
      case isTrue hp =>
        obtain rfl := Option.some.inj hs
        exact Or.inr (Or.inl ⟨hp, Or.inr rfl⟩)
      case isFalse hp => exact absurd hs (by simp)
    | retry t j' hs =>
      simp only [retryJob] at hs
      split at hs
      case isTrue hc =>
        obtain rfl := Option.some.inj hs
        exact Or.inr (Or.inr (Or.inl ⟨hc.1, hc.2, rfl⟩))
      case isFalse hc => exact absurd hs (by simp)
    | cancel hterm =>
      refine Or.inr (Or.inr (Or.inr ⟨hterm, ?_⟩))
      simp [cancelJob, hterm]
  · intro j hj
    have hterm : j.isTerminal = true := by
      rcases hj with h | ⟨h1, h2⟩
      · simp [OrchestrateJob.isTerminal, h]
      · simp [OrchestrateJob.isTerminal, h1, h2]
    simp [cancelJob, hterm]

/-- Witness for `job_status_state_machine`: cancelling the exhausted job
changes nothing. -/
theorem job_status_state_machine_witness :
    cancelJob exhaustedJob = exhaustedJob :=
  job_status_state_machine.2 exhaustedJob (Or.inr ⟨rfl, by decide⟩)

end CFD
